import Mathlib

/-!
Verification of the latch-md5sum workflow task (src/wf/__init__.py).

The task streams a file through a named pipe in 4096-byte chunks, feeding
each chunk into an incremental MD5 accumulator, logs progress every
UPDATE_INTERVAL chunks, writes the hex digest and the remote path of the
input file (tab separated, newline terminated) to the fixed local path
/tmp/md5sum.txt, joins the download thread, and returns that path.

Bytes are modelled as natural numbers below 256; byte strings as lists of
such numbers.  Machine words are natural numbers reduced modulo 2 ^ 32
wherever the 32-bit arithmetic of MD5 wraps.
-/

/-- 2 ^ 32, the modulus of the 32-bit arithmetic used by MD5. -/
def mask32 : Nat := 4294967296

/-- Addition of 32-bit words, wrapping modulo 2 ^ 32. -/
def add32 (x y : Nat) : Nat := (x + y) % mask32

/-- Bitwise complement within 32 bits (valid for inputs below 2 ^ 32). -/
def not32 (x : Nat) : Nat := 4294967295 ^^^ x

/-- Left rotation of a 32-bit word by s positions. -/
def rotl32 (x s : Nat) : Nat := ((x <<< s) ||| (x >>> (32 - s))) &&& 4294967295

/-- The 64 sine-derived constants of MD5 (RFC 1321, table T). -/
def md5K : List Nat :=
  [0xd76aa478, 0xe8c7b756, 0x242070db, 0xc1bdceee,
   0xf57c0faf, 0x4787c62a, 0xa8304613, 0xfd469501,
   0x698098d8, 0x8b44f7af, 0xffff5bb1, 0x895cd7be,
   0x6b901122, 0xfd987193, 0xa679438e, 0x49b40821,
   0xf61e2562, 0xc040b340, 0x265e5a51, 0xe9b6c7aa,
   0xd62f105d, 0x02441453, 0xd8a1e681, 0xe7d3fbc8,
   0x21e1cde6, 0xc33707d6, 0xf4d50d87, 0x455a14ed,
   0xa9e3e905, 0xfcefa3f8, 0x676f02d9, 0x8d2a4c8a,
   0xfffa3942, 0x8771f681, 0x6d9d6122, 0xfde5380c,
   0xa4beea44, 0x4bdecfa9, 0xf6bb4b60, 0xbebfbc70,
   0x289b7ec6, 0xeaa127fa, 0xd4ef3085, 0x04881d05,
   0xd9d4d039, 0xe6db99e5, 0x1fa27cf8, 0xc4ac5665,
   0xf4292244, 0x432aff97, 0xab9423a7, 0xfc93a039,
   0x655b59c3, 0x8f0ccc92, 0xffeff47d, 0x85845dd1,
   0x6fa87e4f, 0xfe2ce6e0, 0xa3014314, 0x4e0811a1,
   0xf7537e82, 0xbd3af235, 0x2ad7d2bb, 0xeb86d391]

/-- The 64 per-round left-rotation amounts of MD5. -/
def md5S : List Nat :=
  [7, 12, 17, 22, 7, 12, 17, 22, 7, 12, 17, 22, 7, 12, 17, 22,
   5, 9, 14, 20, 5, 9, 14, 20, 5, 9, 14, 20, 5, 9, 14, 20,
   4, 11, 16, 23, 4, 11, 16, 23, 4, 11, 16, 23, 4, 11, 16, 23,
   6, 10, 15, 21, 6, 10, 15, 21, 6, 10, 15, 21, 6, 10, 15, 21]

/-- The four 32-bit chaining words of the MD5 state. -/
structure MD5St where
  a : Nat
  b : Nat
  c : Nat
  d : Nat

/-- The MD5 initialization vector (RFC 1321). -/
def md5IV : MD5St := ⟨0x67452301, 0xefcdab89, 0x98badcfe, 0x10325476⟩

/-- One of the 64 rounds of the MD5 compression function.  M is the list of
the 16 little-endian 32-bit words of the current block, i the round index. -/
def md5Step (M : List Nat) (st : MD5St) (i : Nat) : MD5St :=
  let f :=
    if i < 16 then (st.b &&& st.c) ||| (not32 st.b &&& st.d)
    else if i < 32 then (st.d &&& st.b) ||| (not32 st.d &&& st.c)
    else if i < 48 then st.b ^^^ st.c ^^^ st.d
    else st.c ^^^ (st.b ||| not32 st.d)
  let g :=
    if i < 16 then i
    else if i < 32 then (5 * i + 1) % 16
    else if i < 48 then (3 * i + 5) % 16
    else (7 * i) % 16
  let t := (f + st.a + md5K.getD i 0 + M.getD g 0) % mask32
  ⟨st.d, add32 st.b (rotl32 t (md5S.getD i 0)), st.b, st.c⟩

/-- The MD5 compression function: 64 rounds over one 16-word block, then a
wrapping addition of the incoming chaining state. -/
def md5Compress (st : MD5St) (M : List Nat) : MD5St :=
  let r := (List.range 64).foldl (md5Step M) st
  ⟨add32 st.a r.a, add32 st.b r.b, add32 st.c r.c, add32 st.d r.d⟩

/-- Assemble a byte list into little-endian 32-bit words, four bytes each. -/
def toWords : List Nat → List Nat
  | b0 :: b1 :: b2 :: b3 :: rest =>
      (b0 + b1 * 256 + b2 * 65536 + b3 * 16777216) :: toWords rest
  | _ => []

/-- The eight little-endian bytes of a 64-bit length field. -/
def leBytes8 (n : Nat) : List Nat :=
  [n % 256, n / 256 % 256, n / 65536 % 256, n / 16777216 % 256,
   n / 4294967296 % 256, n / 1099511627776 % 256,
   n / 281474976710656 % 256, n / 72057594037927936 % 256]

/-- MD5 padding: append the byte 0x80, then zero bytes until the length is
56 modulo 64, then the original bit length as eight little-endian bytes. -/
def padMsg (msg : List Nat) : List Nat :=
  msg ++ [128] ++ List.replicate ((119 - msg.length % 64) % 64) 0
      ++ leBytes8 (msg.length * 8 % 18446744073709551616)

/-- Helper for splitting a byte stream into chunks of n bytes: acc holds the
bytes of the chunk currently being assembled, in reverse order. -/
def chunksGo (n : Nat) : List Nat → List Nat → List (List Nat)
  | acc, [] => if acc.isEmpty then [] else [acc.reverse]
  | acc, b :: rest =>
      if acc.length + 1 = n then (b :: acc).reverse :: chunksGo n [] rest
      else chunksGo n (b :: acc) rest

/-- Model of the chunked read loop of line 58: the successive values of
f.read(n) on a stream holding content, i.e. the chunks of n bytes (the
final one possibly shorter) until the empty read that terminates the
iteration.  A Python read of zero bytes returns the empty bytes object at
once, so n = 0 yields no chunks. -/
def readChunks (n : Nat) (content : List Nat) : List (List Nat) :=
  if n = 0 then [] else chunksGo n [] content

/-- The four little-endian bytes of a 32-bit word. -/
def wordLEBytes (w : Nat) : List Nat :=
  [w % 256, w / 256 % 256, w / 65536 % 256, w / 16777216 % 256]

/-- The lowercase hexadecimal digit for n (defined for n below 16). -/
def hexDigit (n : Nat) : Char :=
  if n < 10 then Char.ofNat (48 + n) else Char.ofNat (87 + n)

/-- The two lowercase hex characters encoding one byte. -/
def byteHex (b : Nat) : List Char := [hexDigit (b / 16 % 16), hexDigit (b % 16)]

/-- Lowercase hex encoding of a byte list. -/
def bytesHex (bs : List Nat) : List Char := (bs.map byteHex).flatten

/-- The 32-character lowercase hex rendering of a final MD5 state: the four
chaining words serialized little-endian, byte by byte. -/
def md5HexOfState (st : MD5St) : String :=
  String.mk (bytesHex (wordLEBytes st.a ++ wordLEBytes st.b
      ++ wordLEBytes st.c ++ wordLEBytes st.d))

/-- MD5 of a byte list, as a lowercase hex string: pad, compress the
64-byte blocks in order, serialize.  This is the mathematical function
computed by hashlib.md5 over the concatenation of all bytes fed to it. -/
def md5Hex (msg : List Nat) : String :=
  md5HexOfState ((readChunks 64 (padMsg msg)).foldl
    (fun st blk => md5Compress st (toWords blk)) md5IV)

/-- Model of the state of a hashlib.md5 object: the bytes fed to it so
far.  A fresh object (line 56) has been fed nothing. -/
def md5_init : List Nat := []

/-- Model of the update method of a hashlib.md5 object (line 62): feeding a
chunk appends it to the accumulated byte stream. -/
def md5_update (st chunk : List Nat) : List Nat := st ++ chunk

/-- Model of the hexdigest method (line 63): the MD5 hex digest of all
bytes fed so far. -/
def md5_hexdigest (st : List Nat) : String := md5Hex st

/-- The chunk size of the read loop (line 26). -/
def CHUNK_SIZE : Nat := 4096

/-- The progress interval in chunks (line 27): int(500 * 1024 * 1024 /
CHUNK_SIZE), i.e. one report per 500 MB of full chunks. -/
def UPDATE_INTERVAL : Nat := 500 * 1024 * 1024 / CHUNK_SIZE

/-- The body of the for loop of lines 58-62, iterated over the chunks read
from the pipe: i is the chunk index, st the md5 accumulator state, logs the
progress observations emitted so far.  Each observation is recorded as the
byte count i * CHUNK_SIZE whose megabyte rendering the log line of lines
60-61 prints. -/
def digestLoopGo (i : Nat) (st : List Nat) (logs : List Nat) :
    List (List Nat) → List Nat × List Nat
  | [] => (st, logs)
  | chunk :: rest =>
      digestLoopGo (i + 1) (md5_update st chunk)
        (if 0 < i ∧ i % UPDATE_INTERVAL = 0 then logs ++ [i * CHUNK_SIZE] else logs)
        rest

/-- The streaming digest loop of lines 56-63 run over a pipe that delivers
content: read CHUNK_SIZE-byte chunks, feed each into the md5 accumulator,
emit a progress observation at every chunk index i with 0 < i and
i % UPDATE_INTERVAL = 0, and on the empty read finalize to the lowercase
hex digest.  Returns the digest and the emitted observations. -/
def digestLoop (content : List Nat) : String × List Nat :=
  (md5_hexdigest (digestLoopGo 0 md5_init [] (readChunks CHUNK_SIZE content)).1,
    (digestLoopGo 0 md5_init [] (readChunks CHUNK_SIZE content)).2)

/-- The digest produced by the streaming loop of lines 56-63 when the reads
deliver chunks of n bytes.  The chunk size is kept as a parameter because
the claims compare the digests obtained under different chunkings of the
same content. -/
def streamDigest (n : Nat) (content : List Nat) : String :=
  md5_hexdigest ((readChunks n content).foldl md5_update md5_init)

/-- The expected progress log for k chunks starting at chunk index i: one
observation of i * CHUNK_SIZE bytes for every index i with 0 < i and
i % UPDATE_INTERVAL = 0. -/
def progressLogFrom (i : Nat) : Nat → List Nat
  | 0 => []
  | k + 1 =>
      (if 0 < i ∧ i % UPDATE_INTERVAL = 0 then [i * CHUNK_SIZE] else [])
        ++ progressLogFrom (i + 1) k

/-- Model of a LatchFile argument of the task: the local path and the
optional remote path of the referenced file. -/
structure LatchFileRef where
  local_path : String
  remote_path : Option String

/-- Python rendering of an Optional string inside an f-string: the string
itself when present, the text None when absent. -/
def pyStrOpt : Option String → String
  | some s => s
  | none => "None"

/-- The identifier the caller supplied for the input file: its remote path
when there is one, otherwise its local path.  This is the selection made on
line 49 to choose the download source. -/
def originalIdentifier (file : LatchFileRef) : String :=
  match file.remote_path with
  | some r => r
  | none => file.local_path

/-- The single line written to /tmp/md5sum.txt (line 65): the digest, a
tab, the Python rendering of file.remote_path, and a newline. -/
def outputLine (digest : String) (file : LatchFileRef) : String :=
  digest ++ "\t" ++ pyStrOpt file.remote_path ++ "\n"

/-- The observable outcome of one run of compute_md5sum_task. -/
structure TaskResult where
  artifactPath : String
  artifactContent : String
  returned_local_path : String
  returned_remote_path : Option String

/-- Model of compute_md5sum_task (lines 38-68) on the success path, with
content the byte stream the download thread delivers through the fifo:
digest the stream with the loop of lines 56-63, write the digest and
file.remote_path to the fixed path /tmp/md5sum.txt (lines 64-65), and
return a LatchFile with that local path and the remote path of output_file
(line 68). -/
def compute_md5sum_task (file output_file : LatchFileRef) (content : List Nat) :
    TaskResult :=
  { artifactPath := "/tmp/md5sum.txt"
    artifactContent := outputLine (digestLoop content).1 file
    returned_local_path := "/tmp/md5sum.txt"
    returned_remote_path := output_file.remote_path }

/-- The effect of one run of the task on the local filesystem, seen as a
map from paths to file contents: the open of line 64 uses mode w, which
truncates, so the artifact replaces whatever was at /tmp/md5sum.txt and no
other path changes. -/
def runTaskFS (file output_file : LatchFileRef) (content : List Nat)
    (fs : String → Option String) : String → Option String :=
  fun p =>
    if p = "/tmp/md5sum.txt"
    then some (compute_md5sum_task file output_file content).artifactContent
    else fs p

/-- The side-effecting steps of the task body, in the order they appear. -/
inductive Ev
  | mkFifo
  | startFetch
  | digestDone
  | writeArtifact
  | joinFetch
  | returnFile
  deriving DecidableEq

/-- The order in which the statements of compute_md5sum_task execute on the
success path: make the fifo (line 45), start the download thread (line 54),
run the digest loop to completion (lines 56-63), write the artifact (lines
64-65), join the download thread (line 67), return (line 68). -/
def taskTrace : List Ev :=
  [Ev.mkFifo, Ev.startFetch, Ev.digestDone, Ev.writeArtifact, Ev.joinFetch,
    Ev.returnFile]

/-- What the download thread does to the fifo: either it opens the write
end, writes a byte stream, and closes it, or it raises before ever opening
the write end.  The subprocess cp of line 35 opens its source before its
destination, so with a missing source it exits without opening the fifo;
LatchPersistence raises before writing when the remote object is missing.
Python threading discards the exception either way: join re-raises
nothing. -/
inductive FetchBehavior
  | delivers (bytes : List Nat)
  | failsBeforeOpen

/-- The outcome of open(file_pipe, rb) on line 57 followed by reading to
end-of-stream: opening a fifo for reading blocks until some writer opens
it, so when the download thread fails before opening the write end the
open call never returns, modelled as none.  When the thread writes a byte
stream and closes, the reader sees exactly those bytes and then
end-of-stream. -/
def fifoRead : FetchBehavior → Option (List Nat)
  | FetchBehavior.delivers bs => some bs
  | FetchBehavior.failsBeforeOpen => none

/-- compute_md5sum_task together with the blocking behaviour of the fifo:
when the download thread never opens the write end, the task blocks
forever in the open of line 57 and produces no outcome at all (none); in
particular no error ever reaches the caller, because the join of line 67
propagates nothing. -/
def runTask (file output_file : LatchFileRef) (fb : FetchBehavior) :
    Option TaskResult :=
  (fifoRead fb).map (compute_md5sum_task file output_file)

/-- Model of download_file (lines 30-35) as the byte stream it delivers to
the sink at local_path: fs maps local paths to file contents, remoteStore
maps remote identifiers to object contents.  With remote true,
LatchPersistence download streams the remote object into the sink;
otherwise subprocess cp copies the local file into the sink byte-for-byte.
A result of none means the source is missing and the command fails. -/
def download_file (fs remoteStore : String → Option (List Nat))
    (remote_or_local_path : String) (remote : Bool) : Option (List Nat) :=
  if remote then remoteStore remote_or_local_path else fs remote_or_local_path

/-- A one-file local filesystem used to instantiate the fetch theorem. -/
def fsExample : String → Option (List Nat) :=
  fun p => if p = "/root/data/test_file.txt" then some [104, 105, 10] else none

/-- An empty remote store used to instantiate the fetch theorem. -/
def rsExample : String → Option (List Nat) := fun _ => none

/-- The sixteen lowercase hexadecimal characters. -/
def hexDigitChars : List Char := "0123456789abcdef".data

set_option maxRecDepth 40000

/-- Flattening the chunks of a stream restores the stream: the chunks are
consecutive and in order, with acc the partial chunk assembled so far. -/
theorem chunksGo_flatten (n : Nat) :
    ∀ (rest acc : List Nat), (chunksGo n acc rest).flatten = acc.reverse ++ rest := by
  intro rest
  induction rest with
  | nil =>
      intro acc
      cases acc with
      | nil => simp [chunksGo]
      | cons x xs => simp [chunksGo]
  | cons b rest ih =>
      intro acc
      by_cases h : acc.length + 1 = n
      · simp [chunksGo, h, ih]
      · simp [chunksGo, h, ih]

/-- The chunked read loop loses no bytes and reorders none, for any
positive chunk size. -/
theorem readChunks_flatten (n : Nat) (h : 0 < n) (content : List Nat) :
    (readChunks n content).flatten = content := by
  unfold readChunks
  rw [if_neg (Nat.pos_iff_ne_zero.mp h)]
  simpa using chunksGo_flatten n content []

/-- Folding the update of the md5 accumulator over a chunk list
concatenates the chunks onto the initial state. -/
theorem foldl_md5_update (l : List (List Nat)) :
    ∀ init, l.foldl md5_update init = init ++ l.flatten := by
  induction l with
  | nil => intro init; simp
  | cons x xs ih => intro init; simp [md5_update, ih]

/-- The streaming digest under any positive chunk size is the MD5 digest
of the whole content. -/
theorem streamDigest_eq_md5Hex (n : Nat) (h : 0 < n) (content : List Nat) :
    streamDigest n content = md5Hex content := by
  unfold streamDigest md5_hexdigest md5_init
  rw [foldl_md5_update, List.nil_append, readChunks_flatten n h]

/-- The loop of lines 58-62 computed in closed form: the accumulator ends
up fed with every chunk in order, and the log extends by exactly the
expected observations. -/
theorem digestLoopGo_spec :
    ∀ (chunks : List (List Nat)) (i : Nat) (st logs : List Nat),
      digestLoopGo i st logs chunks =
        (chunks.foldl md5_update st, logs ++ progressLogFrom i chunks.length) := by
  intro chunks
  induction chunks with
  | nil => intro i st logs; simp [digestLoopGo, progressLogFrom]
  | cons c rest ih =>
      intro i st logs
      by_cases h : 0 < i ∧ i % UPDATE_INTERVAL = 0
      · simp [digestLoopGo, h, ih, progressLogFrom]
      · simp [digestLoopGo, h, ih, progressLogFrom]

/-- The digest component of the loop is the MD5 digest of the content. -/
theorem digestLoop_fst (content : List Nat) :
    (digestLoop content).1 = md5Hex content := by
  unfold digestLoop
  rw [digestLoopGo_spec]
  unfold md5_hexdigest md5_init
  rw [foldl_md5_update, List.nil_append,
    readChunks_flatten CHUNK_SIZE (by decide)]

/-- The log component of the loop is exactly the expected progress log. -/
theorem digestLoop_snd (content : List Nat) :
    (digestLoop content).2 =
      progressLogFrom 0 (readChunks CHUNK_SIZE content).length := by
  unfold digestLoop
  rw [digestLoopGo_spec]
  simp

/-- Every hex digit produced from a value below sixteen is one of the
sixteen lowercase hex characters. -/
theorem hexDigit_mem (n : Nat) (h : n < 16) : hexDigit n ∈ hexDigitChars := by
  interval_cases n <;> decide

/-- Both characters encoding a byte are lowercase hex characters. -/
theorem byteHex_all (b : Nat) :
    (byteHex b).all (fun c => hexDigitChars.contains c) = true := by
  simp only [byteHex, List.all_cons, List.all_nil, Bool.and_true, Bool.and_eq_true]
  exact ⟨List.elem_eq_true_of_mem (hexDigit_mem _ (Nat.mod_lt _ (by decide))),
    List.elem_eq_true_of_mem (hexDigit_mem _ (Nat.mod_lt _ (by decide)))⟩

/-- The hex encoding of any byte list consists of lowercase hex
characters only. -/
theorem bytesHex_all (bs : List Nat) :
    (bytesHex bs).all (fun c => hexDigitChars.contains c) = true := by
  induction bs with
  | nil => decide
  | cons b rest ih =>
      have h := byteHex_all b
      simp only [bytesHex, List.map_cons, List.flatten_cons, List.all_append,
        Bool.and_eq_true] at *
      exact ⟨h, ih⟩

/-- The hex encoding of a byte list has two characters per byte. -/
theorem bytesHex_length (bs : List Nat) : (bytesHex bs).length = 2 * bs.length := by
  induction bs with
  | nil => rfl
  | cons b rest ih =>
      simp only [bytesHex, List.map_cons, List.flatten_cons, List.length_append,
        List.length_cons] at *
      simp [byteHex, ih]
      omega

/-- The rendering of any MD5 state is 32 characters long. -/
theorem md5HexOfState_length (st : MD5St) : (md5HexOfState st).length = 32 := by
  show (bytesHex _).length = 32
  rw [bytesHex_length]
  simp [wordLEBytes]

/-- The rendering of any MD5 state uses lowercase hex characters only. -/
theorem md5HexOfState_all (st : MD5St) :
    (md5HexOfState st).data.all (fun c => hexDigitChars.contains c) = true :=
  bytesHex_all _

/-- Any MD5 digest string is 32 characters long. -/
theorem md5Hex_length (msg : List Nat) : (md5Hex msg).length = 32 :=
  md5HexOfState_length _

/-- Any MD5 digest string uses lowercase hex characters only. -/
theorem md5Hex_all (msg : List Nat) :
    (md5Hex msg).data.all (fun c => hexDigitChars.contains c) = true :=
  md5HexOfState_all _

/-- C1: the hex digest computed by the streaming digest loop is a function
of the concatenated byte content only: for any fixed content, digesting
under any two positive chunk sizes yields the identical digest, namely the
MD5 hex digest of the content, independent of chunk boundaries. -/
theorem digest_independent_of_chunk_size (content : List Nat) (n m : Nat)
    (hn : 0 < n) (hm : 0 < m) :
    streamDigest n content = streamDigest m content ∧
      streamDigest n content = md5Hex content := by
  constructor
  · rw [streamDigest_eq_md5Hex n hn, streamDigest_eq_md5Hex m hm]
  · exact streamDigest_eq_md5Hex n hn content

theorem digest_independent_of_chunk_size_w :
    0 < 7 ∧ 0 < 4096 ∧
      (streamDigest 7 [97, 98, 99] = streamDigest 4096 [97, 98, 99] ∧
        streamDigest 7 [97, 98, 99] = md5Hex [97, 98, 99]) :=
  ⟨by decide, by decide,
    digest_independent_of_chunk_size [97, 98, 99] 7 4096 (by decide) (by decide)⟩

/-- C2 as stated is false: for a local input file the second field of the
output line is the text None, not the identifier the caller supplied.
Concrete input: a local file at /root/data/test_file.txt with no remote
path, holding the three bytes 104, 105, 10. -/
theorem output_line_cex :
    outputLine (md5Hex [104, 105, 10])
        (LatchFileRef.mk "/root/data/test_file.txt" none) ≠
      md5Hex [104, 105, 10] ++ "\t" ++
        originalIdentifier (LatchFileRef.mk "/root/data/test_file.txt" none) ++
          "\n" := by
  decide

/-- C2 amended: on success the artifact is a single tab-separated line
ending in a newline; the first field is the 32-character lowercase hex MD5
digest of the streamed content, and the second field is the Python
rendering of the remote path of the input file -- the supplied identifier
when the input is remote, but the text None when the input is local. -/
theorem output_artifact_format (file output_file : LatchFileRef)
    (content : List Nat) :
    (compute_md5sum_task file output_file content).artifactContent =
        md5Hex content ++ "\t" ++ pyStrOpt file.remote_path ++ "\n" ∧
      (md5Hex content).length = 32 ∧
      (md5Hex content).data.all (fun c => hexDigitChars.contains c) = true := by
  refine ⟨?_, md5Hex_length content, md5Hex_all content⟩
  show outputLine (digestLoop content).1 file = _
  rw [digestLoop_fst]
  rfl

/-- C3: evaluating the task at the failing input: when the download fails
before opening the fifo write end (here, a local source path that does not
exist, making the cp of line 35 exit without opening the destination), the
task produces no outcome at all -- the open of line 57 blocks forever, the
read never terminates, and no error is reported to the caller. -/
theorem fetch_failure_hangs :
    runTask (LatchFileRef.mk "/nonexistent/input.txt" none)
        (LatchFileRef.mk "/tmp/out.txt" (some "latch:///out.txt"))
        FetchBehavior.failsBeforeOpen = none := by
  rfl

/-- C4 as stated is false: in the program order of the task body, the
artifact write of lines 64-65 precedes the join of the download thread at
line 67, so the result file is written before the task waits for the
fetcher. -/
theorem write_before_join_cex :
    taskTrace.indexOf Ev.writeArtifact < taskTrace.indexOf Ev.joinFetch := by
  decide

/-- C4 amended: the task runs the digest loop to completion, then writes
the digest and identifier into the result file, and only afterwards waits
for the download thread; the result file is written before the fetcher
task is joined. -/
theorem trace_order :
    taskTrace.indexOf Ev.digestDone < taskTrace.indexOf Ev.writeArtifact ∧
      taskTrace.indexOf Ev.writeArtifact < taskTrace.indexOf Ev.joinFetch := by
  decide

/-- C5: the streaming digest of the empty input is the well-known MD5
digest of zero bytes, and the streaming digest of the byte sequence abc is
the reference MD5 digest of abc (RFC 1321, appendix A.5). -/
theorem known_vectors :
    streamDigest CHUNK_SIZE [] = "d41d8cd98f00b204e9800998ecf8427e" ∧
      streamDigest CHUNK_SIZE [97, 98, 99] =
        "900150983cd24fb0d6963f7d28e17f72" := by
  constructor
  · decide
  · decide

/-- C6: one run writes the artifact at /tmp/md5sum.txt in truncating mode,
so running the task twice on the same content leaves the filesystem
exactly as one run does: the artifacts are byte-identical and the second
run overwrites (does not append to) the first. -/
theorem idempotent_runs (file output_file : LatchFileRef) (content : List Nat)
    (fs : String → Option String) :
    runTaskFS file output_file content (runTaskFS file output_file content fs) =
        runTaskFS file output_file content fs ∧
      runTaskFS file output_file content fs "/tmp/md5sum.txt" =
        some (outputLine (digestLoop content).1 file) := by
  constructor
  · funext p
    unfold runTaskFS
    by_cases h : p = "/tmp/md5sum.txt" <;> simp [h]
  · simp [runTaskFS, compute_md5sum_task]

/-- C7: the digest loop emits a progress observation exactly at the chunk
indices i with 0 < i and i % UPDATE_INTERVAL = 0, i.e. after every
UPDATE_INTERVAL chunks of CHUNK_SIZE bytes (500 MB), reporting the byte
count read before the current chunk; and the telemetry never affects the
digest, which equals the MD5 digest of the content in all cases. -/
theorem progress_telemetry (content : List Nat) :
    (digestLoop content).1 = md5Hex content ∧
      (digestLoop content).2 =
        progressLogFrom 0 (readChunks CHUNK_SIZE content).length :=
  ⟨digestLoop_fst content, digestLoop_snd content⟩

/-- C8: on the empty read signalling end-of-stream the loop finalizes the
accumulator and returns the digest in lowercase hexadecimal: the returned
string is the MD5 hex digest of the streamed content, is 32 characters
long, and every one of its characters is a lowercase hex character. -/
theorem digest_lowercase_hex (content : List Nat) :
    (digestLoop content).1 = md5Hex content ∧
      (digestLoop content).1.length = 32 ∧
      (digestLoop content).1.data.all (fun c => hexDigitChars.contains c)
        = true := by
  refine ⟨digestLoop_fst content, ?_, ?_⟩
  · rw [digestLoop_fst]; exact md5Hex_length content
  · rw [digestLoop_fst]; exact md5Hex_all content

/-- C9: for a local file reference the fetch delivers to the sink exactly
the byte sequence stored at the local path -- byte-for-byte, in order,
with no transformation. -/
theorem local_fetch_byte_for_byte (fs remoteStore : String → Option (List Nat))
    (path : String) (bs : List Nat) (h : fs path = some bs) :
    download_file fs remoteStore path false = some bs := by
  simpa [download_file] using h

theorem local_fetch_byte_for_byte_w :
    fsExample "/root/data/test_file.txt" = some [104, 105, 10] ∧
      download_file fsExample rsExample "/root/data/test_file.txt" false =
        some [104, 105, 10] :=
  ⟨rfl, local_fetch_byte_for_byte fsExample rsExample "/root/data/test_file.txt"
    [104, 105, 10] rfl⟩

/-- C10: whatever the arguments, the artifact is written to the fixed path
/tmp/md5sum.txt and the returned LatchFile has that same local path, so a
later invocation with any arguments overwrites the artifact of an earlier
one at that shared path. -/
theorem fixed_output_path (f1 o1 f2 o2 : LatchFileRef) (c1 c2 : List Nat)
    (fs : String → Option String) :
    (compute_md5sum_task f1 o1 c1).artifactPath = "/tmp/md5sum.txt" ∧
      (compute_md5sum_task f1 o1 c1).returned_local_path = "/tmp/md5sum.txt" ∧
      runTaskFS f2 o2 c2 (runTaskFS f1 o1 c1 fs) "/tmp/md5sum.txt" =
        some (compute_md5sum_task f2 o2 c2).artifactContent := by
  refine ⟨rfl, rfl, ?_⟩
  simp [runTaskFS]
